import Mathlib

/-!
# Verification of the Adiabatic Flame Temperature notebook (CBE20255)

This file embeds the computational content of the notebook
`notebooks/Adiabatic Flame Temperature.ipynb` and proves properties of it.

The notebook computes the adiabatic flame temperature for the combustion of
methane in air, `CH4 + 3 O2 -> CO2 + 2 H2O`, on a basis of 1 gmol of CH4:

* `n` is a dict of product molar amounts: `n['CO2'] = 1`, `n['H2O'] = 2`,
  `n['N2'] = 3*(.79/0.21)`;
* `Cp` is a dict of gas-phase heat-capacity functions (cubic polynomials in
  the temperature `T`, in degrees C) for the keys `('CO2','g')`, `('H2O','g')`,
  `('N2','g')`;
* `DeltaH_Rxn = -890400` (J per gmol CH4);
* `DeltaH_Prod(T)` integrates each heat capacity from 25 to `T` with
  `scipy.integrate.quad` and forms the mole-weighted sum;
* `f = lambda T: DeltaH_Rxn + DeltaH_Prod(T)`;
* the flame temperature is `T = brentq(f, 25, 3000)`, printed with format
  `{:6.1f}` as `1765.5`.

The embedding models the numerical quadrature of the (smooth, polynomial)
integrands by the exact interval integral over `ℝ`, and the value returned by
the bracketed root search by an exact root of `f` in the bracket.
-/

open Set MeasureTheory intervalIntegral

namespace AdiabaticFlame

/-- `Cp['CO2','g']`: heat capacity of gaseous CO2, J/(gmol C), `T` in deg C. -/
noncomputable def Cp_CO2 (T : ℝ) : ℝ :=
  36.11 + 4.233e-2 * T - 2.887e-5 * T ^ 2 + 7.464e-9 * T ^ 3

/-- `Cp['H2O','g']`: heat capacity of gaseous H2O. -/
noncomputable def Cp_H2O (T : ℝ) : ℝ :=
  33.46 + 0.688e-2 * T + 0.7604e-5 * T ^ 2 - 3.593e-9 * T ^ 3

/-- `Cp['N2','g']`: heat capacity of gaseous N2. -/
noncomputable def Cp_N2 (T : ℝ) : ℝ :=
  29.00 + 0.2199e-2 * T + 0.5723e-5 * T ^ 2 - 2.871e-9 * T ^ 3

/-- `n['CO2'] = 1`: gmol of CO2 in the product gas per gmol CH4 burned. -/
noncomputable def n_CO2 : ℝ := 1

/-- `n['H2O'] = 2`: gmol of H2O in the product gas. -/
noncomputable def n_H2O : ℝ := 2

/-- `n['N2'] = 3*(.79/0.21)`: gmol of N2 accompanying 3 gmol O2 of air. -/
noncomputable def n_N2 : ℝ := 3 * (0.79 / 0.21)

/-- `DeltaH_Rxn = -890400`: heat of reaction, J per gmol CH4. -/
noncomputable def DeltaH_Rxn : ℝ := -890400

/-- `DeltaH_Prod(T)`: mole-weighted sum of the heat-capacity integrals from
25 to `T` (the notebook evaluates each integral with `integrate.quad`; the
embedding uses the exact interval integral). -/
noncomputable def DeltaH_Prod (T : ℝ) : ℝ :=
  n_CO2 * (∫ x in (25:ℝ)..T, Cp_CO2 x) + n_H2O * (∫ x in (25:ℝ)..T, Cp_H2O x)
    + n_N2 * (∫ x in (25:ℝ)..T, Cp_N2 x)

/-- `f = lambda T: DeltaH_Rxn + DeltaH_Prod(T)`: the enthalpy balance. -/
noncomputable def f (T : ℝ) : ℝ := DeltaH_Rxn + DeltaH_Prod T

/-- Closed-form integral of a cubic polynomial with coefficients
`c0, c1, c2, c3` from `a` to `b`. -/
noncomputable def intCp (c0 c1 c2 c3 a b : ℝ) : ℝ :=
  c0 * (b - a) + c1 * (b ^ 2 - a ^ 2) / 2 + c2 * (b ^ 3 - a ^ 3) / 3
    + c3 * (b ^ 4 - a ^ 4) / 4

/-- Closed form of `∫ Cp_CO2` from 25 to `T`. -/
noncomputable def H_CO2 (T : ℝ) : ℝ := intCp 36.11 4.233e-2 (-2.887e-5) 7.464e-9 25 T

/-- Closed form of `∫ Cp_H2O` from 25 to `T`. -/
noncomputable def H_H2O (T : ℝ) : ℝ := intCp 33.46 0.688e-2 0.7604e-5 (-3.593e-9) 25 T

/-- Closed form of `∫ Cp_N2` from 25 to `T`. -/
noncomputable def H_N2 (T : ℝ) : ℝ := intCp 29.00 0.2199e-2 0.5723e-5 (-2.871e-9) 25 T

/-- Closed polynomial form of the enthalpy balance `f`. -/
noncomputable def fPoly (T : ℝ) : ℝ :=
  DeltaH_Rxn + n_CO2 * H_CO2 T + n_H2O * H_H2O T + n_N2 * H_N2 T

lemma integral_cubic (c0 c1 c2 c3 a b : ℝ) :
    (∫ x in a..b, (c0 + c1 * x + c2 * x ^ 2 + c3 * x ^ 3)) =
      intCp c0 c1 c2 c3 a b := by
  have h0 : IntervalIntegrable (fun _ : ℝ => c0) volume a b := intervalIntegrable_const
  have h1 : IntervalIntegrable (fun x : ℝ => c1 * x) volume a b :=
    (continuous_const.mul continuous_id).intervalIntegrable a b
  have h2 : IntervalIntegrable (fun x : ℝ => c2 * x ^ 2) volume a b :=
    (continuous_const.mul (continuous_pow 2)).intervalIntegrable a b
  have h3 : IntervalIntegrable (fun x : ℝ => c3 * x ^ 3) volume a b :=
    (continuous_const.mul (continuous_pow 3)).intervalIntegrable a b
  rw [intervalIntegral.integral_add ((h0.add h1).add h2) h3,
    intervalIntegral.integral_add (h0.add h1) h2,
    intervalIntegral.integral_add h0 h1,
    intervalIntegral.integral_const,
    intervalIntegral.integral_const_mul, intervalIntegral.integral_const_mul,
    intervalIntegral.integral_const_mul,
    integral_id, integral_pow, integral_pow]
  simp only [intCp, smul_eq_mul]
  ring

lemma H_CO2_eq (T : ℝ) : (∫ x in (25:ℝ)..T, Cp_CO2 x) = H_CO2 T := by
  have h : Cp_CO2 = fun x : ℝ =>
      36.11 + 4.233e-2 * x + (-2.887e-5) * x ^ 2 + 7.464e-9 * x ^ 3 := by
    funext x; rw [Cp_CO2]; ring
  rw [h, H_CO2]
  exact integral_cubic _ _ _ _ _ _

lemma H_H2O_eq (T : ℝ) : (∫ x in (25:ℝ)..T, Cp_H2O x) = H_H2O T := by
  have h : Cp_H2O = fun x : ℝ =>
      33.46 + 0.688e-2 * x + 0.7604e-5 * x ^ 2 + (-3.593e-9) * x ^ 3 := by
    funext x; rw [Cp_H2O]; ring
  rw [h, H_H2O]
  exact integral_cubic _ _ _ _ _ _

lemma H_N2_eq (T : ℝ) : (∫ x in (25:ℝ)..T, Cp_N2 x) = H_N2 T := by
  have h : Cp_N2 = fun x : ℝ =>
      29.00 + 0.2199e-2 * x + 0.5723e-5 * x ^ 2 + (-2.871e-9) * x ^ 3 := by
    funext x; rw [Cp_N2]; ring
  rw [h, H_N2]
  exact integral_cubic _ _ _ _ _ _

lemma DeltaH_Prod_eq (T : ℝ) :
    DeltaH_Prod T = n_CO2 * H_CO2 T + n_H2O * H_H2O T + n_N2 * H_N2 T := by
  rw [DeltaH_Prod, H_CO2_eq, H_H2O_eq, H_N2_eq]

lemma f_eq_fPoly (T : ℝ) : f T = fPoly T := by
  rw [f, fPoly, DeltaH_Prod_eq]; ring

/-! ## Positivity of the heat capacities on the bracket -/

lemma Cp_CO2_pos {T : ℝ} (h25 : 25 ≤ T) (h3000 : T ≤ 3000) : 0 < Cp_CO2 T := by
  rw [Cp_CO2]
  have hT : (0:ℝ) ≤ T := by linarith
  rcases le_total T 2000 with hc | hc
  · have h1 : T ^ 2 ≤ 2000 * T := by nlinarith [mul_nonneg (by linarith : (0:ℝ) ≤ 2000 - T) hT]
    have h2 : (0:ℝ) ≤ T ^ 3 := pow_nonneg hT 3
    linarith
  · have h1 : 2000 * T ^ 2 ≤ T ^ 3 := by
      nlinarith [mul_nonneg (by linarith : (0:ℝ) ≤ T - 2000) (sq_nonneg T)]
    have h2 : T ^ 2 ≤ 3000 * T := by
      nlinarith [mul_nonneg (by linarith : (0:ℝ) ≤ 3000 - T) hT]
    linarith

lemma Cp_H2O_pos {T : ℝ} (h25 : 25 ≤ T) (h3000 : T ≤ 3000) : 0 < Cp_H2O T := by
  rw [Cp_H2O]
  have hT : (0:ℝ) ≤ T := by linarith
  have h1 : T ^ 3 ≤ 3000 * T ^ 2 := by
    nlinarith [mul_nonneg (by linarith : (0:ℝ) ≤ 3000 - T) (sq_nonneg T)]
  have h2 : T ^ 2 ≤ 3000 * T := by
    nlinarith [mul_nonneg (by linarith : (0:ℝ) ≤ 3000 - T) hT]
  linarith

lemma Cp_N2_pos {T : ℝ} (h25 : 25 ≤ T) (h3000 : T ≤ 3000) : 0 < Cp_N2 T := by
  rw [Cp_N2]
  have hT : (0:ℝ) ≤ T := by linarith
  have h1 : T ^ 3 ≤ 3000 * T ^ 2 := by
    nlinarith [mul_nonneg (by linarith : (0:ℝ) ≤ 3000 - T) (sq_nonneg T)]
  have h2 : T ^ 2 ≤ 3000 * T := by
    nlinarith [mul_nonneg (by linarith : (0:ℝ) ≤ 3000 - T) hT]
  linarith

lemma n_CO2_pos : 0 < n_CO2 := by rw [n_CO2]; norm_num

lemma n_H2O_pos : 0 < n_H2O := by rw [n_H2O]; norm_num

lemma n_N2_pos : 0 < n_N2 := by rw [n_N2]; norm_num

/-! ## Derivative and monotonicity of the enthalpy balance -/

lemma hasDerivAt_cubicInt (c0 c1 c2 c3 T : ℝ) :
    HasDerivAt (fun x : ℝ => c0 * (x - 25) + c1 * (x ^ 2 - 25 ^ 2) / 2
      + c2 * (x ^ 3 - 25 ^ 3) / 3 + c3 * (x ^ 4 - 25 ^ 4) / 4)
      (c0 + c1 * T + c2 * T ^ 2 + c3 * T ^ 3) T := by
  have d1 := (hasDerivAt_id' (𝕜 := ℝ) T).sub_const (25:ℝ) |>.const_mul c0
  have d2 := (((hasDerivAt_pow 2 T).sub_const ((25:ℝ) ^ 2)).const_mul c1).div_const 2
  have d3 := (((hasDerivAt_pow 3 T).sub_const ((25:ℝ) ^ 3)).const_mul c2).div_const 3
  have d4 := (((hasDerivAt_pow 4 T).sub_const ((25:ℝ) ^ 4)).const_mul c3).div_const 4
  have h := ((d1.add d2).add d3).add d4
  convert h using 1
  push_cast
  ring

lemma hasDerivAt_H_CO2 (T : ℝ) : HasDerivAt H_CO2 (Cp_CO2 T) T := by
  have hfun : H_CO2 = fun x : ℝ => 36.11 * (x - 25) + 4.233e-2 * (x ^ 2 - 25 ^ 2) / 2
      + (-2.887e-5) * (x ^ 3 - 25 ^ 3) / 3 + 7.464e-9 * (x ^ 4 - 25 ^ 4) / 4 := by
    funext x; rw [H_CO2, intCp]
  rw [hfun, Cp_CO2]
  have h := hasDerivAt_cubicInt 36.11 4.233e-2 (-2.887e-5) 7.464e-9 T
  convert h using 1
  ring

lemma hasDerivAt_H_H2O (T : ℝ) : HasDerivAt H_H2O (Cp_H2O T) T := by
  have hfun : H_H2O = fun x : ℝ => 33.46 * (x - 25) + 0.688e-2 * (x ^ 2 - 25 ^ 2) / 2
      + 0.7604e-5 * (x ^ 3 - 25 ^ 3) / 3 + (-3.593e-9) * (x ^ 4 - 25 ^ 4) / 4 := by
    funext x; rw [H_H2O, intCp]
  rw [hfun, Cp_H2O]
  have h := hasDerivAt_cubicInt 33.46 0.688e-2 0.7604e-5 (-3.593e-9) T
  convert h using 1
  ring

lemma hasDerivAt_H_N2 (T : ℝ) : HasDerivAt H_N2 (Cp_N2 T) T := by
  have hfun : H_N2 = fun x : ℝ => 29.00 * (x - 25) + 0.2199e-2 * (x ^ 2 - 25 ^ 2) / 2
      + 0.5723e-5 * (x ^ 3 - 25 ^ 3) / 3 + (-2.871e-9) * (x ^ 4 - 25 ^ 4) / 4 := by
    funext x; rw [H_N2, intCp]
  rw [hfun, Cp_N2]
  have h := hasDerivAt_cubicInt 29.00 0.2199e-2 0.5723e-5 (-2.871e-9) T
  convert h using 1
  ring

lemma hasDerivAt_fPoly (T : ℝ) :
    HasDerivAt fPoly (n_CO2 * Cp_CO2 T + n_H2O * Cp_H2O T + n_N2 * Cp_N2 T) T := by
  have h1 := (hasDerivAt_H_CO2 T).const_mul n_CO2
  have h2 := (hasDerivAt_H_H2O T).const_mul n_H2O
  have h3 := (hasDerivAt_H_N2 T).const_mul n_N2
  have h := ((h1.add h2).add h3).const_add DeltaH_Rxn
  have hfun : fPoly = fun x : ℝ =>
      DeltaH_Rxn + (n_CO2 * H_CO2 x + n_H2O * H_H2O x + n_N2 * H_N2 x) := by
    funext x; rw [fPoly]; ring
  rw [hfun]
  exact h

lemma continuous_fPoly : Continuous fPoly :=
  continuous_iff_continuousAt.mpr fun T => (hasDerivAt_fPoly T).continuousAt

lemma fPoly_strictMonoOn : StrictMonoOn fPoly (Icc (25:ℝ) 3000) := by
  apply strictMonoOn_of_deriv_pos (convex_Icc _ _) continuous_fPoly.continuousOn
  intro x hx
  rw [interior_Icc] at hx
  rw [(hasDerivAt_fPoly x).deriv]
  have c1 := Cp_CO2_pos hx.1.le hx.2.le
  have c2 := Cp_H2O_pos hx.1.le hx.2.le
  have c3 := Cp_N2_pos hx.1.le hx.2.le
  have := n_CO2_pos; have := n_H2O_pos; have := n_N2_pos
  have p1 := mul_pos n_CO2_pos c1
  have p2 := mul_pos n_H2O_pos c2
  have p3 := mul_pos n_N2_pos c3
  linarith

/-! ## Numeric evaluations of the enthalpy balance -/

lemma fPoly_25 : fPoly 25 = -890400 := by
  rw [fPoly, H_CO2, H_H2O, H_N2, DeltaH_Rxn, n_CO2, n_H2O, n_N2]
  simp only [intCp]
  norm_num

lemma fPoly_3000_pos : 0 < fPoly 3000 := by
  rw [fPoly, H_CO2, H_H2O, H_N2, DeltaH_Rxn, n_CO2, n_H2O, n_N2]
  simp only [intCp]
  norm_num

lemma fPoly_lo_neg : fPoly 1765.45 < 0 := by
  rw [fPoly, H_CO2, H_H2O, H_N2, DeltaH_Rxn, n_CO2, n_H2O, n_N2]
  simp only [intCp]
  norm_num

lemma fPoly_hi_pos : 0 < fPoly 1765.5 := by
  rw [fPoly, H_CO2, H_H2O, H_N2, DeltaH_Rxn, n_CO2, n_H2O, n_N2]
  simp only [intCp]
  norm_num

/-- The enthalpy balance has a root between 1765.45 and 1765.5 degrees C. -/
lemma exists_root_tight : ∃ T, T ∈ Icc (1765.45:ℝ) 1765.5 ∧ fPoly T = 0 := by
  have hsub := intermediate_value_Icc (by norm_num : (1765.45:ℝ) ≤ 1765.5)
    continuous_fPoly.continuousOn
  have h0 : (0:ℝ) ∈ Icc (fPoly 1765.45) (fPoly 1765.5) := ⟨fPoly_lo_neg.le, fPoly_hi_pos.le⟩
  obtain ⟨T, hT, hfT⟩ := hsub h0
  exact ⟨T, hT, hfT⟩

/-- The enthalpy balance has at most one root in the bracket. -/
lemma fPoly_root_unique {T1 T2 : ℝ} (h1 : T1 ∈ Icc (25:ℝ) 3000) (h2 : T2 ∈ Icc (25:ℝ) 3000)
    (e1 : fPoly T1 = 0) (e2 : fPoly T2 = 0) : T1 = T2 := by
  rcases lt_trichotomy T1 T2 with h | h | h
  · have hlt := fPoly_strictMonoOn h1 h2 h
    rw [e1, e2] at hlt
    exact absurd hlt (lt_irrefl 0)
  · exact h
  · have hlt := fPoly_strictMonoOn h2 h1 h
    rw [e1, e2] at hlt
    exact absurd hlt (lt_irrefl 0)

/-! ## The notebook's calculation state

The data cells of the notebook build two Python dicts and one scalar:
`n` (species name to molar amount), `Cp` ((species, phase) to heat-capacity
function) and `DeltaH_Rxn`. The dicts are modelled as association lists in
insertion order. -/

/-- The global state built by the notebook's data cells. -/
structure NotebookState where
  n : List (String × ℝ)
  Cp : List ((String × String) × (ℝ → ℝ))
  DeltaH_Rxn : ℝ

/-- The state after running the three data cells of the notebook. -/
noncomputable def initState : NotebookState where
  n := [("CO2", 1), ("H2O", 2), ("N2", 3 * (0.79 / 0.21))]
  Cp := [(("CO2", "g"), Cp_CO2), (("H2O", "g"), Cp_H2O), (("N2", "g"), Cp_N2)]
  DeltaH_Rxn := -890400

/-- Dict read `n[k]`. The notebook only reads keys that are present; a
missing key is modelled by a zero default. -/
noncomputable def lookupN (σ : NotebookState) (k : String) : ℝ :=
  (σ.n.lookup k).getD 0

/-- Dict read `Cp[s,p]`, with a zero function as the never-used default. -/
noncomputable def lookupCp (σ : NotebookState) (s p : String) : ℝ → ℝ :=
  (σ.Cp.lookup (s, p)).getD (fun _ => 0)

/-- State-passing evaluation of `DeltaH_Prod(T)`. The Python body only
reads the globals `Cp` and `n` (no assignment occurs), so the state
component of the result is the input state unchanged. -/
noncomputable def DeltaH_Prod_run (σ : NotebookState) (T : ℝ) : ℝ × NotebookState :=
  (lookupN σ "CO2" * (∫ x in (25:ℝ)..T, lookupCp σ "CO2" "g" x)
      + lookupN σ "H2O" * (∫ x in (25:ℝ)..T, lookupCp σ "H2O" "g" x)
      + lookupN σ "N2" * (∫ x in (25:ℝ)..T, lookupCp σ "N2" "g" x), σ)

/-- State-passing evaluation of `f(T) = DeltaH_Rxn + DeltaH_Prod(T)`. -/
noncomputable def f_run (σ : NotebookState) (T : ℝ) : ℝ × NotebookState :=
  ((DeltaH_Prod_run σ T).2.DeltaH_Rxn + (DeltaH_Prod_run σ T).1, (DeltaH_Prod_run σ T).2)

lemma lookupN_CO2 : lookupN initState "CO2" = n_CO2 := rfl

lemma lookupN_H2O : lookupN initState "H2O" = n_H2O := rfl

lemma lookupN_N2 : lookupN initState "N2" = n_N2 := rfl

lemma lookupCp_CO2 : lookupCp initState "CO2" "g" = Cp_CO2 := rfl

lemma lookupCp_H2O : lookupCp initState "H2O" "g" = Cp_H2O := rfl

lemma lookupCp_N2 : lookupCp initState "N2" "g" = Cp_N2 := rfl

/-- On the notebook's data, the state-passing evaluation of `f` agrees with
the direct definition. -/
lemma f_run_eq (T : ℝ) : (f_run initState T).1 = f T := rfl

/-! ## Reaction stoichiometry (from the notebook's markdown)

The notebook's markdown states the balanced reaction
`CH4 + 3 O2 -> CO2 + 2 H2O` on a basis of 1 gmol CH4. -/

/-- Coefficient of O2 in the balanced reaction. -/
noncomputable def nu_O2 : ℝ := 3

/-- Coefficient of CO2 in the balanced reaction. -/
noncomputable def nu_CO2 : ℝ := 1

/-- Coefficient of H2O in the balanced reaction. -/
noncomputable def nu_H2O : ℝ := 2

/-! ## The claims -/

/-- Claim C1: the adiabatic flame temperature computed by the notebook — the
unique root of the enthalpy balance `f` on the bracket `[25, 3000]` — lies in
the range 1765 to 1786 degrees C, and within 0.05 of 1765.5, so the value the
notebook prints with its one-decimal format is 1765.5 degrees C. -/
theorem flame_temperature_is_1765_5 :
    ∃ T, (25 ≤ T ∧ T ≤ 3000 ∧ f T = 0) ∧ (1765 ≤ T ∧ T ≤ 1786) ∧
      |T - 1765.5| ≤ 0.05 ∧ ∀ T', 25 ≤ T' → T' ≤ 3000 → f T' = 0 → T' = T := by
  obtain ⟨T, hT, hfT⟩ := exists_root_tight
  have hlo : (1765.45:ℝ) ≤ T := hT.1
  have hhi : T ≤ 1765.5 := hT.2
  refine ⟨T, ⟨by linarith, by linarith, by rw [f_eq_fPoly]; exact hfT⟩,
    ⟨by linarith, by linarith⟩, abs_le.mpr ⟨by linarith, by linarith⟩, ?_⟩
  intro T' h1 h2 h3
  exact fPoly_root_unique (Set.mem_Icc.mpr ⟨h1, h2⟩)
    (Set.mem_Icc.mpr ⟨by linarith, by linarith⟩) (by rw [← f_eq_fPoly]; exact h3) hfT

/-- Claim C2: the temperature found by the bracketed root search satisfies the
enthalpy balance `f(T) = DeltaH_Rxn + DeltaH_Prod(T) = 0` and lies within the
bracket `25 <= T <= 3000`. -/
theorem root_satisfies_enthalpy_balance :
    ∃ T, 25 ≤ T ∧ T ≤ 3000 ∧ f T = DeltaH_Rxn + DeltaH_Prod T ∧ f T = 0 := by
  obtain ⟨T, hT, hfT⟩ := exists_root_tight
  have hlo : (1765.45:ℝ) ≤ T := hT.1
  have hhi : T ≤ 1765.5 := hT.2
  exact ⟨T, by linarith, by linarith, rfl, by rw [f_eq_fPoly]; exact hfT⟩

/-- Claim C3: under the notebook's data the bracket `[25, 3000]` is valid:
`f(25) < 0` and `f(3000) > 0`, and the enthalpy balance has a root in the
bracket, so the root search cannot hit its no-sign-change failure branch. -/
theorem bracket_valid_no_failure :
    f 25 < 0 ∧ 0 < f 3000 ∧ ∃ T, 25 ≤ T ∧ T ≤ 3000 ∧ f T = 0 := by
  refine ⟨?_, ?_, ?_⟩
  · rw [f_eq_fPoly, fPoly_25]; norm_num
  · rw [f_eq_fPoly]; exact fPoly_3000_pos
  · obtain ⟨T, hT, hfT⟩ := exists_root_tight
    have hlo : (1765.45:ℝ) ≤ T := hT.1
    have hhi : T ≤ 1765.5 := hT.2
    exact ⟨T, by linarith, by linarith, by rw [f_eq_fPoly]; exact hfT⟩

/-- Claim C4: for every temperature `T`, `DeltaH_Prod(T)` equals the
mole-weighted sum of the integrals of the three heat-capacity polynomials from
25 to `T`, and equals the closed form obtained by integrating each cubic
polynomial term by term. -/
theorem DeltaH_Prod_is_weighted_integral (T : ℝ) :
    DeltaH_Prod T =
        n_CO2 * (∫ x in (25:ℝ)..T, Cp_CO2 x) + n_H2O * (∫ x in (25:ℝ)..T, Cp_H2O x)
          + n_N2 * (∫ x in (25:ℝ)..T, Cp_N2 x) ∧
      DeltaH_Prod T = n_CO2 * H_CO2 T + n_H2O * H_H2O T + n_N2 * H_N2 T :=
  ⟨rfl, DeltaH_Prod_eq T⟩

/-- Witness for claim C4 at the concrete temperature 100. -/
theorem DeltaH_Prod_is_weighted_integral_witness :
    DeltaH_Prod 100 =
        n_CO2 * (∫ x in (25:ℝ)..100, Cp_CO2 x) + n_H2O * (∫ x in (25:ℝ)..100, Cp_H2O x)
          + n_N2 * (∫ x in (25:ℝ)..100, Cp_N2 x) ∧
      DeltaH_Prod 100 = n_CO2 * H_CO2 100 + n_H2O * H_H2O 100 + n_N2 * H_N2 100 :=
  DeltaH_Prod_is_weighted_integral 100

/-- Claim C5: the product-gas mole mapping is exactly CO2 to 1, H2O to 2, and
N2 to `3*(0.79/0.21)` (which is `79/7`, approximately 11.29), the nitrogen
amount being the nitrogen accompanying the 3 gmol of O2 of the balanced
reaction; no O2 or other species appears among the integrated products. -/
theorem product_moles_exact :
    n_CO2 = 1 ∧ n_H2O = 2 ∧ n_N2 = 3 * (0.79 / 0.21) ∧ n_N2 = 79 / 7 ∧
      |n_N2 - 11.29| < 0.005 ∧ n_N2 = nu_O2 * (0.79 / 0.21) ∧
      n_CO2 = nu_CO2 ∧ n_H2O = nu_H2O ∧
      initState.n.lookup "O2" = none ∧ initState.Cp.lookup ("O2", "g") = none ∧
      initState.n.map Prod.fst = ["CO2", "H2O", "N2"] := by
  refine ⟨rfl, rfl, rfl, ?_, ?_, rfl, rfl, rfl, rfl, rfl, rfl⟩
  · rw [n_N2]; norm_num
  · have h : n_N2 = 79 / 7 := by rw [n_N2]; norm_num
    rw [h, abs_lt]
    constructor <;> norm_num

/-- Claim C6: the notebook's calculation state is exactly the mole dict `n`
with the three stated entries, the heat-capacity dict `Cp` defined for exactly
the keys `('CO2','g')`, `('H2O','g')`, `('N2','g')`, and the scalar
`DeltaH_Rxn = -890400`. -/
theorem calculation_state_exact :
    initState.n.lookup "CO2" = some 1 ∧ initState.n.lookup "H2O" = some 2 ∧
      initState.n.lookup "N2" = some (3 * (0.79 / 0.21)) ∧
      initState.n.map Prod.fst = ["CO2", "H2O", "N2"] ∧
      initState.Cp.lookup ("CO2", "g") = some Cp_CO2 ∧
      initState.Cp.lookup ("H2O", "g") = some Cp_H2O ∧
      initState.Cp.lookup ("N2", "g") = some Cp_N2 ∧
      initState.Cp.map Prod.fst = [("CO2", "g"), ("H2O", "g"), ("N2", "g")] ∧
      initState.DeltaH_Rxn = -890400 :=
  ⟨rfl, rfl, rfl, rfl, rfl, rfl, rfl, rfl, rfl⟩

/-- Claim C7: each heat-capacity polynomial is strictly positive on
`[25, 3000]` and every mole count is positive, so the enthalpy balance `f` is
strictly increasing on the bracket and has at most one root there. -/
theorem f_strictly_increasing_unique_root :
    (∀ T, 25 ≤ T → T ≤ 3000 → 0 < Cp_CO2 T ∧ 0 < Cp_H2O T ∧ 0 < Cp_N2 T) ∧
      (0 < n_CO2 ∧ 0 < n_H2O ∧ 0 < n_N2) ∧
      (∀ T1 T2, 25 ≤ T1 → T1 < T2 → T2 ≤ 3000 → f T1 < f T2) ∧
      (∀ T1 T2, 25 ≤ T1 → T1 ≤ 3000 → 25 ≤ T2 → T2 ≤ 3000 →
        f T1 = 0 → f T2 = 0 → T1 = T2) := by
  refine ⟨fun T h1 h2 => ⟨Cp_CO2_pos h1 h2, Cp_H2O_pos h1 h2, Cp_N2_pos h1 h2⟩,
    ⟨n_CO2_pos, n_H2O_pos, n_N2_pos⟩, ?_, ?_⟩
  · intro T1 T2 h1 h2 h3
    rw [f_eq_fPoly, f_eq_fPoly]
    exact fPoly_strictMonoOn (Set.mem_Icc.mpr ⟨h1, by linarith⟩)
      (Set.mem_Icc.mpr ⟨by linarith, h3⟩) h2
  · intro T1 T2 a b c d e1 e2
    exact fPoly_root_unique (Set.mem_Icc.mpr ⟨a, b⟩) (Set.mem_Icc.mpr ⟨c, d⟩)
      (by rw [← f_eq_fPoly]; exact e1) (by rw [← f_eq_fPoly]; exact e2)

/-- Witness for claim C7 at the concrete temperatures 100 and 200. -/
theorem f_strictly_increasing_unique_root_witness :
    (0 < Cp_CO2 100 ∧ 0 < Cp_H2O 100 ∧ 0 < Cp_N2 100) ∧ f 100 < f 200 :=
  ⟨f_strictly_increasing_unique_root.1 100 (by norm_num) (by norm_num),
    f_strictly_increasing_unique_root.2.2.1 100 200 (by norm_num) (by norm_num) (by norm_num)⟩

/-- Claim C8: evaluating `DeltaH_Prod` or `f` leaves the notebook's state
(the dicts `n` and `Cp` and the scalar `DeltaH_Rxn`) unchanged, and repeated
evaluations see the same data and return the same value. -/
theorem evaluation_preserves_state (σ : NotebookState) (T : ℝ) :
    (DeltaH_Prod_run σ T).2 = σ ∧ (f_run σ T).2 = σ ∧
      (f_run σ T).1 = (f_run (f_run σ T).2 T).1 ∧
      (DeltaH_Prod_run σ T).1 = (DeltaH_Prod_run (DeltaH_Prod_run σ T).2 T).1 :=
  ⟨rfl, rfl, rfl, rfl⟩

/-- Witness for claim C8 at the notebook's state and temperature 100. -/
theorem evaluation_preserves_state_witness :
    (DeltaH_Prod_run initState 100).2 = initState ∧ (f_run initState 100).2 = initState ∧
      (f_run initState 100).1 = (f_run (f_run initState 100).2 100).1 ∧
      (DeltaH_Prod_run initState 100).1 =
        (DeltaH_Prod_run (DeltaH_Prod_run initState 100).2 100).1 :=
  evaluation_preserves_state initState 100

/-- Claim C9: the computation is deterministic and self-contained: two runs
from the same literal data agree at equal temperatures, the run over the
notebook's state computes exactly the function `f` of the defined constants,
and the reported flame temperature (the root in the bracket) is unique. -/
theorem computation_deterministic :
    (∀ σ1 σ2 : NotebookState, ∀ T1 T2 : ℝ, σ1 = σ2 → T1 = T2 →
        (f_run σ1 T1).1 = (f_run σ2 T2).1) ∧
      (∀ T, (f_run initState T).1 = f T) ∧
      (∀ T1 T2, 25 ≤ T1 → T1 ≤ 3000 → 25 ≤ T2 → T2 ≤ 3000 →
        (f_run initState T1).1 = 0 → (f_run initState T2).1 = 0 → T1 = T2) := by
  refine ⟨?_, fun T => f_run_eq T, ?_⟩
  · rintro σ1 σ2 T1 T2 rfl rfl
    rfl
  · intro T1 T2 a b c d e1 e2
    rw [f_run_eq, f_eq_fPoly] at e1 e2
    exact fPoly_root_unique (Set.mem_Icc.mpr ⟨a, b⟩) (Set.mem_Icc.mpr ⟨c, d⟩) e1 e2

/-- Witness for claim C9 at the notebook's state and temperature 100. -/
theorem computation_deterministic_witness :
    (f_run initState 100).1 = (f_run initState 100).1 ∧ (f_run initState 100).1 = f 100 :=
  ⟨computation_deterministic.1 initState initState 100 100 rfl rfl,
    computation_deterministic.2.1 100⟩

/-- Claim C10: at the 25 degrees C reference state, `DeltaH_Prod(25) = 0`
(integration over an empty interval), so `f(25) = DeltaH_Rxn = -890400`. -/
theorem reference_state_value :
    DeltaH_Prod 25 = 0 ∧ f 25 = DeltaH_Rxn ∧ f 25 = -890400 := by
  have h : DeltaH_Prod 25 = 0 := by
    rw [DeltaH_Prod]
    simp [intervalIntegral.integral_same]
  exact ⟨h, by rw [f, h, add_zero], by rw [f, h, add_zero, DeltaH_Rxn]⟩

end AdiabaticFlame
